import Mathlib

/-!
Verification of the Forecast-Dashboard reconciliation spec against src/app.py.

The engine under test is SKUAnalyzer in src/app.py.  Its inputs come from
worksheet.get_all_records, so every cell is either a number, a missing value
(pandas NaN) or a free-form string.  The metric computation is
SKUAnalyzer.calculate_forecast_accuracy (src/app.py lines 174-214): it walks
the Rofo (forecast) rows, looks up the first Sales row with the same SKU_SAP,
and for each of the eleven month columns Forecast_01..Forecast_11 /
Sales_01..Sales_11 computes a clamped accuracy percentage or None.
prepare_data (src/app.py lines 90-122) renames the column labels of the input
frames in place before any computation.
-/

namespace ForecastDashboard

/-- A spreadsheet cell as delivered by get_all_records: a number, a missing
value (pandas NaN after DataFrame construction), or a free-form string. -/
inductive Cell where
  | num (q : ℚ)
  | na
  | txt (s : String)
deriving DecidableEq, Repr

/-- Python exceptions that the try block of calculate_forecast_accuracy can
see: a TypeError from arithmetic on a string, or a ZeroDivisionError. -/
inductive PyErr where
  | typeError
  | zeroDivision
deriving DecidableEq, Repr

/-- pd.notna on a cell (src/app.py line 201). -/
def notna : Cell → Bool
  | .na => false
  | _ => true

/-- The Python test forecast_val != 0 (src/app.py line 201).  For a number it
compares values; a string is always unequal to the integer 0.  The NaN case
never reaches this test because pd.notna is checked first in the same
short-circuit conjunction, so its value here is irrelevant; Python would also
answer true for NaN. -/
def cellNeZero : Cell → Bool
  | .num q => if q = 0 then false else true
  | .na => true
  | .txt _ => true

/-- Python subtraction sales_val - forecast_val on two cells (src/app.py
line 203).  Number minus number succeeds; any string operand raises
TypeError.  NaN operands never occur here: the pd.notna guard on line 201
precedes the try block. -/
def pySub : Cell → Cell → Except PyErr ℚ
  | .num x, .num y => .ok (x - y)
  | _, _ => .error .typeError

/-- Python division by the forecast cell (src/app.py line 203): dividing by a
numeric zero raises ZeroDivisionError, dividing by a string raises TypeError,
otherwise the quotient is returned. -/
def pyDiv (a : ℚ) : Cell → Except PyErr ℚ
  | .num y => if y = 0 then .error .zeroDivision else .ok (a / y)
  | _ => .error .typeError

/-- The body of the try block (src/app.py line 203):
accuracy = (1 - abs(sales_val - forecast_val) / forecast_val) * 100,
with each Python operation made explicit so that the raised exception, if
any, is visible. -/
def tryBody (f s : Cell) : Except PyErr ℚ :=
  match pySub s f with
  | .error e => .error e
  | .ok d =>
    match pyDiv |d| f with
    | .error e => .error e
    | .ok r => .ok ((1 - r) * 100)

/-- One month cell of the accuracy computation (src/app.py lines 201-208):
if pd.notna(forecast_val) and pd.notna(sales_val) and forecast_val != 0, run
the try block and store max(0, min(100, accuracy)); a raised exception or a
failed guard stores None. -/
def accuracyCell (f s : Cell) : Option ℚ :=
  if notna f && notna s && cellNeZero f then
    match tryBody f s with
    | .ok a => some (max 0 (min 100 a))
    | .error _ => none
  else none

/-- One month of the loop body (src/app.py lines 197-210): both the
Forecast_i column and the Sales_i column must be present in their rows,
otherwise the stored value is None. -/
def monthAccuracy (fc sc : Option Cell) : Option ℚ :=
  match fc, sc with
  | some f, some s => accuracyCell f s
  | _, _ => none

/-- A prepared Rofo row: its SKU_SAP key, its Product_Name, and the cells of
the Forecast_01..Forecast_11 columns present in the row (a shorter list
models a sheet with fewer forecast columns). -/
structure RofoRow where
  sku_sap : String
  product_name : String
  forecast : List Cell
deriving DecidableEq, Repr

/-- A prepared Sales row: its SKU_SAP key and the cells of the
Sales_01..Sales_11 columns present in the row. -/
structure SalesRow where
  sku_sap : String
  sales : List Cell
deriving DecidableEq, Repr

/-- An output row of calculate_forecast_accuracy: SKU_SAP, Product_Name and
the eleven Accuracy_01..Accuracy_11 values (None or a percentage). -/
structure AccuracyRow where
  sku_sap : String
  product_name : String
  acc : List (Option ℚ)
deriving DecidableEq, Repr

/-- The inner month loop for i in range(1, 12) (src/app.py lines 193-210):
eleven months, list position i corresponding to Forecast_(i+1)/Sales_(i+1). -/
def rowAccuracies (r : RofoRow) (s : SalesRow) : List (Option ℚ) :=
  (List.range 11).map (fun i => monthAccuracy (r.forecast.get? i) (s.sales.get? i))

/-- SKUAnalyzer.calculate_forecast_accuracy (src/app.py lines 174-214):
returns an empty frame if the Rofo or the Sales frame is empty; otherwise,
for each Rofo row, selects the Sales rows with equal SKU_SAP, skips the Rofo
row when there is none, and uses sales_match.iloc[0], the first match, to
fill the eleven accuracy cells. -/
def calculate_forecast_accuracy (rofo : List RofoRow) (sales : List SalesRow) :
    List AccuracyRow :=
  if rofo.isEmpty || sales.isEmpty then []
  else
    rofo.filterMap (fun r =>
      match sales.find? (fun s => s.sku_sap == r.sku_sap) with
      | some srow => some ⟨r.sku_sap, r.product_name, rowAccuracies r srow⟩
      | none => none)

/-- A raw input table: ordered column labels plus rows of cells. -/
structure RawTable where
  cols : List String
  rows : List (List Cell)
deriving DecidableEq, Repr

/-- The caller-visible effect of prepare_data on the master table
(src/app.py lines 94-96).  The statement
self.master_data.columns = [Material, OLD_Material, SKU_SAP] assigns the
column labels of the very DataFrame object the caller passed in, so the
rename is visible outside the analyzer; pandas raises ValueError when the
label count does not match (caught on line 121, leaving the object
unchanged), and the branch runs only when the frame is nonempty.  The
subsequent dropna rebinds self.master_data to a fresh frame, so the rows of
the caller object are untouched.  The Rofo and Sales frames are renamed in
place the same way on lines 106 and 115. -/
def masterAfterPrepare (t : RawTable) : RawTable :=
  if t.rows.isEmpty then t
  else if t.cols.length = 3 then
    { t with cols := ["Material", "OLD_Material", "SKU_SAP"] }
  else t

/-- Modelled from the spec: the five accuracy statuses of the Metric Engine
(spec section 4.4).  No code under src/ computes any categorical status;
calculate_forecast_accuracy outputs only accuracy percentages, so this
classifier is missing from src/ and is taken from the specification text. -/
inductive Status where
  | UnforecastedDemand
  | MissedNoSupply
  | Accurate
  | UnderDelivery
  | OverDelivery
deriving DecidableEq, Repr

/-- Modelled from the spec: the forecast achievement ratio of the Metric
Engine (spec section 4.4), missing from src/: far = A / F if F is positive,
and for F = 0 the sentinel 10.0 when A is positive, else 1.0. -/
def far (F A : ℚ) : ℚ :=
  if 0 < F then A / F
  else if 0 < A then 10 else 1

/-- Modelled from the spec: the 5-way status classification of the Metric
Engine (spec section 4.4), missing from src/, evaluated in priority order
with first match winning and an inclusive 0.8..1.2 accuracy band. -/
def status (F A : ℚ) : Status :=
  if F = 0 ∧ 0 < A then .UnforecastedDemand
  else if 0 < F ∧ A = 0 then .MissedNoSupply
  else if 8/10 ≤ far F A ∧ far F A ≤ 12/10 then .Accurate
  else if far F A < 8/10 then .UnderDelivery
  else .OverDelivery

/-- The single output row of calculate_forecast_accuracy on the one-SKU run
with forecast 100 and sales 90 used as a concrete instance below. -/
def c10row : AccuracyRow :=
  ⟨"X", "P", [some (max 0 (min 100 ((1 - |(90 : ℚ) - 100| / 100) * 100))),
    none, none, none, none, none, none, none, none, none, none]⟩

/-- Every month value of the accuracy computation is None or a clamped
accuracy percentage with a nonzero forecast denominator. -/
lemma monthAccuracy_spec (fc sc : Option Cell) :
    monthAccuracy fc sc = none
    ∨ ∃ q v : ℚ, q ≠ 0
        ∧ monthAccuracy fc sc = some (max 0 (min 100 ((1 - |v - q| / q) * 100))) := by
  rcases fc with _ | f
  · left; rfl
  rcases sc with _ | s
  · left; rfl
  rcases f with q | _ | t
  · by_cases hq : q = 0
    · left; simp [monthAccuracy, accuracyCell, cellNeZero, hq]
    · rcases s with v | _ | u
      · right
        exact ⟨q, v, hq, by simp [monthAccuracy, accuracyCell, tryBody, pySub, pyDiv,
          notna, cellNeZero, hq]⟩
      · left; simp [monthAccuracy, accuracyCell, notna]
      · left; simp [monthAccuracy, accuracyCell, tryBody, pySub, notna, cellNeZero, hq]
  · left; simp [monthAccuracy, accuracyCell, notna]
  · rcases s with v | _ | u
    · left; simp [monthAccuracy, accuracyCell, tryBody, pySub, notna, cellNeZero]
    · left; simp [monthAccuracy, accuracyCell, notna]
    · left; simp [monthAccuracy, accuracyCell, tryBody, pySub, notna, cellNeZero]

/-- C1 counterexample: on a reconciled row with forecast F = 100 and actual
sales A = 90, the per-month metric the code produces is 90 (a clamped
accuracy percentage), not the claimed achievement ratio A / F = 90/100; and
for F = 0 the metric is None, not the claimed sentinel. -/
theorem C1_counterexample :
    calculate_forecast_accuracy [⟨"X", "P", [Cell.num 100]⟩] [⟨"X", [Cell.num 90]⟩] =
      [⟨"X", "P", [some (max 0 (min 100 ((1 - |(90 : ℚ) - 100| / 100) * 100))),
        none, none, none, none, none, none, none, none, none, none]⟩]
    ∧ max 0 (min 100 ((1 - |(90 : ℚ) - 100| / 100) * 100)) = 90
    ∧ (90 : ℚ) ≠ 90 / 100
    ∧ accuracyCell (Cell.num 0) (Cell.num 90) = none :=
  ⟨rfl, by norm_num, by norm_num, by decide⟩

/-- C1 (amended): for a numeric forecast F ≠ 0 and numeric sales A the code
stores the clamped accuracy percentage max(0, min(100, (1 - abs(A - F)/F) * 100)),
and for a zero forecast it stores None - no A / F ratio and no 10.0/1.0
sentinels are produced. -/
theorem C1_thm (F A : ℚ) (h : F ≠ 0) :
    accuracyCell (Cell.num F) (Cell.num A) =
      some (max 0 (min 100 ((1 - |A - F| / F) * 100)))
    ∧ accuracyCell (Cell.num 0) (Cell.num A) = none := by
  constructor
  · simp [accuracyCell, tryBody, pySub, pyDiv, notna, cellNeZero, h]
  · simp [accuracyCell, notna, cellNeZero]

/-- Witness for C1_thm at F = 100, A = 90. -/
theorem C1_witness :
    (100 : ℚ) ≠ 0
    ∧ (accuracyCell (Cell.num 100) (Cell.num 90) =
        some (max 0 (min 100 ((1 - |(90 : ℚ) - 100| / 100) * 100)))
      ∧ accuracyCell (Cell.num 0) (Cell.num 90) = none) :=
  ⟨by norm_num, C1_thm 100 90 (by norm_num)⟩

/-- C4 counterexample: two sales rows for the same SKU with month-1
quantities 30 and 20 against a forecast of 100; the code uses only the first
row (metric value for sales 30), whereas summation semantics would use 50
(metric value 50). -/
theorem C4_counterexample :
    (calculate_forecast_accuracy [⟨"X", "P", [Cell.num 100]⟩]
        [⟨"X", [Cell.num 30]⟩, ⟨"X", [Cell.num 20]⟩]).map (fun a => a.acc.head?) =
      [some (accuracyCell (Cell.num 100) (Cell.num 30))]
    ∧ accuracyCell (Cell.num 100) (Cell.num 30) = some 30
    ∧ accuracyCell (Cell.num 100) (Cell.num 50) = some 50
    ∧ (30 : ℚ) ≠ 50 :=
  ⟨rfl,
   by norm_num [accuracyCell, tryBody, pySub, pyDiv, notna, cellNeZero],
   by norm_num [accuracyCell, tryBody, pySub, pyDiv, notna, cellNeZero],
   by norm_num⟩

/-- C4 (amended): when several sales rows share the forecast row's SKU_SAP,
calculate_forecast_accuracy resolves the duplicate by taking the first
matching row (sales_match.iloc[0]); quantities are never summed. -/
theorem C4_thm (r : RofoRow) (s1 s2 : SalesRow) (h : s1.sku_sap = r.sku_sap) :
    calculate_forecast_accuracy [r] [s1, s2] =
      [⟨r.sku_sap, r.product_name, rowAccuracies r s1⟩] := by
  simp [calculate_forecast_accuracy, List.find?, h]

/-- Witness for C4_thm on the two-duplicate sales input. -/
theorem C4_witness :
    SalesRow.sku_sap ⟨"X", [Cell.num 30]⟩ = RofoRow.sku_sap ⟨"X", "P", [Cell.num 100]⟩
    ∧ calculate_forecast_accuracy [⟨"X", "P", [Cell.num 100]⟩]
        [⟨"X", [Cell.num 30]⟩, ⟨"X", [Cell.num 20]⟩] =
      [⟨"X", "P", rowAccuracies ⟨"X", "P", [Cell.num 100]⟩ ⟨"X", [Cell.num 30]⟩⟩] :=
  ⟨rfl, C4_thm _ _ _ rfl⟩

/-- C5 counterexample: a forecast row and a matching sales row whose only
quantities are all zero still produce an output row; all-zero combinations
are not dropped. -/
theorem C5_counterexample :
    calculate_forecast_accuracy [⟨"X", "P", [Cell.num 0]⟩] [⟨"X", [Cell.num 0]⟩] ≠ [] := by
  decide

/-- C5 (amended): a forecast row whose SKU_SAP matches a sales row always
yields exactly one output row, even when every forecast quantity is zero; in
that case every per-month accuracy value is None rather than the row being
dropped. -/
theorem C5_thm (r : RofoRow) (s : SalesRow) (h : s.sku_sap = r.sku_sap)
    (hz : ∀ c ∈ r.forecast, c = Cell.num 0) :
    calculate_forecast_accuracy [r] [s] = [⟨r.sku_sap, r.product_name, rowAccuracies r s⟩]
    ∧ ∀ a ∈ rowAccuracies r s, a = none := by
  constructor
  · simp [calculate_forecast_accuracy, List.find?, h]
  · intro a ha
    rw [rowAccuracies, List.mem_map] at ha
    obtain ⟨i, -, rfl⟩ := ha
    rcases hf : r.forecast.get? i with _ | c
    · simp [monthAccuracy, hf]
    · have hc := hz c (List.get?_mem hf)
      subst hc
      rcases hs : s.sales.get? i with _ | sc
      · simp [monthAccuracy, hf, hs]
      · simp [monthAccuracy, accuracyCell, cellNeZero, hf, hs]

/-- Witness for C5_thm on the all-zero row. -/
theorem C5_witness :
    SalesRow.sku_sap ⟨"X", [Cell.num 0]⟩ = RofoRow.sku_sap ⟨"X", "P", [Cell.num 0]⟩
    ∧ (∀ c ∈ RofoRow.forecast ⟨"X", "P", [Cell.num 0]⟩, c = Cell.num 0)
    ∧ (calculate_forecast_accuracy [⟨"X", "P", [Cell.num 0]⟩] [⟨"X", [Cell.num 0]⟩] =
        [⟨"X", "P", rowAccuracies ⟨"X", "P", [Cell.num 0]⟩ ⟨"X", [Cell.num 0]⟩⟩]
      ∧ ∀ a ∈ rowAccuracies ⟨"X", "P", [Cell.num 0]⟩ ⟨"X", [Cell.num 0]⟩, a = none) :=
  ⟨rfl, by decide, C5_thm _ _ rfl (by decide)⟩

/-- C6 counterexample: a sales cell holding the literal string "-" against a
forecast of 100 yields None for that month, whereas coercing "-" to the
quantity 0, as the claim requires, would yield the value some 0. -/
theorem C6_counterexample :
    (calculate_forecast_accuracy [⟨"X", "P", [Cell.num 100]⟩]
        [⟨"X", [Cell.txt "-"]⟩]).map (fun a => a.acc.head?) = [some none]
    ∧ accuracyCell (Cell.num 100) (Cell.num 0) = some 0 :=
  ⟨by decide, by norm_num [accuracyCell, tryBody, pySub, pyDiv, notna, cellNeZero]⟩

/-- C6 (amended): an unparseable (string) cell never fails the run - the
bare except stores None for that month instead of coercing the cell to 0;
and negative numeric values are used as-is rather than clamped to 0 (a
forecast of -100 with sales 50 produces the value 100, not None). -/
theorem C6_thm (q : ℚ) (t : String) (s : Cell) :
    accuracyCell (Cell.num q) (Cell.txt t) = none
    ∧ accuracyCell (Cell.txt t) s = none
    ∧ accuracyCell (Cell.num (-100)) (Cell.num 50) = some 100 := by
  refine ⟨?_, ?_, ?_⟩
  · by_cases hq : q = 0 <;>
      simp [accuracyCell, tryBody, pySub, notna, cellNeZero, hq]
  · rcases s with v | _ | u <;>
      simp [accuracyCell, tryBody, pySub, notna, cellNeZero]
  · norm_num [accuracyCell, tryBody, pySub, pyDiv, notna, cellNeZero]

/-- C7 counterexample: with a nonempty forecast source and an empty sales
source, calculate_forecast_accuracy returns the empty table instead of
proceeding with the remaining source. -/
theorem C7_counterexample :
    calculate_forecast_accuracy [⟨"X", "P", [Cell.num 100]⟩] ([] : List SalesRow) = [] := by
  decide

/-- C7 (amended): whenever the forecast source or the sales source is empty,
calculate_forecast_accuracy returns an empty table (and main aborts when any
sheet is empty, src/app.py lines 304-306); partial reconciliation is not
supported. -/
theorem C7_thm (rofo : List RofoRow) (sales : List SalesRow)
    (h : rofo = [] ∨ sales = []) :
    calculate_forecast_accuracy rofo sales = [] := by
  rcases h with h | h <;> simp [calculate_forecast_accuracy, h]

/-- Witness for C7_thm with an empty sales source. -/
theorem C7_witness :
    (([⟨"X", "P", [Cell.num 100]⟩] : List RofoRow) = [] ∨ ([] : List SalesRow) = [])
    ∧ calculate_forecast_accuracy [⟨"X", "P", [Cell.num 100]⟩] ([] : List SalesRow) = [] :=
  ⟨Or.inr rfl, C7_thm _ _ (Or.inr rfl)⟩

/-- C2: the spec-modelled status classifier is a 5-way classification chosen
in priority order - F = 0 with positive A gives UnforecastedDemand, positive
F with A = 0 gives MissedNoSupply, then the inclusive 0.8..1.2 far band gives
Accurate, far below 0.8 gives UnderDelivery and far above 1.2 gives
OverDelivery - and far exactly 0.8 or exactly 1.2 classifies as Accurate. -/
theorem C2_thm (F A : ℚ) :
    (F = 0 ∧ 0 < A → status F A = Status.UnforecastedDemand)
    ∧ (0 < F ∧ A = 0 → status F A = Status.MissedNoSupply)
    ∧ (¬(F = 0 ∧ 0 < A) → ¬(0 < F ∧ A = 0) →
        8/10 ≤ far F A → far F A ≤ 12/10 → status F A = Status.Accurate)
    ∧ (¬(F = 0 ∧ 0 < A) → ¬(0 < F ∧ A = 0) →
        far F A < 8/10 → status F A = Status.UnderDelivery)
    ∧ (¬(F = 0 ∧ 0 < A) → ¬(0 < F ∧ A = 0) →
        12/10 < far F A → status F A = Status.OverDelivery)
    ∧ (far F A = 8/10 → status F A = Status.Accurate)
    ∧ (far F A = 12/10 → status F A = Status.Accurate) := by
  have hub : ∀ x : ℚ, far F A = x → ¬(F = 0 ∧ 0 < A) → ¬(0 < F ∧ A = 0) →
      8/10 ≤ x → x ≤ 12/10 → status F A = Status.Accurate := by
    intro x hx h1 h2 hlo hhi
    rw [status, if_neg h1, if_neg h2, if_pos ⟨hx ▸ hlo, hx ▸ hhi⟩]
  have hfar0 : F = 0 ∧ 0 < A → far F A = 10 := by
    rintro ⟨hF, hA⟩
    rw [far, if_neg (by rw [hF]; exact lt_irrefl 0), if_pos hA]
  have hfarM : 0 < F ∧ A = 0 → far F A = 0 := by
    rintro ⟨hF, hA⟩
    rw [far, if_pos hF, hA, zero_div]
  refine ⟨?_, ?_, ?_, ?_, ?_, ?_, ?_⟩
  · intro h; rw [status, if_pos h]
  · intro h
    rw [status, if_neg (fun hc => absurd hc.1 (ne_of_gt h.1)), if_pos h]
  · intro h1 h2 hlo hhi
    exact hub (far F A) rfl h1 h2 hlo hhi
  · intro h1 h2 hlt
    rw [status, if_neg h1, if_neg h2,
      if_neg (fun hc => absurd hc.1 (not_le.mpr hlt)), if_pos hlt]
  · intro h1 h2 hgt
    rw [status, if_neg h1, if_neg h2,
      if_neg (fun hc => absurd hc.2 (not_le.mpr hgt)),
      if_neg (not_lt.mpr (le_trans (by norm_num) (le_of_lt hgt)))]
  · intro h
    have h1 : ¬(F = 0 ∧ 0 < A) := fun hc => by
      rw [hfar0 hc] at h; norm_num at h
    have h2 : ¬(0 < F ∧ A = 0) := fun hc => by
      rw [hfarM hc] at h; norm_num at h
    exact hub (8/10) h h1 h2 (le_refl _) (by norm_num)
  · intro h
    have h1 : ¬(F = 0 ∧ 0 < A) := fun hc => by
      rw [hfar0 hc] at h; norm_num at h
    have h2 : ¬(0 < F ∧ A = 0) := fun hc => by
      rw [hfarM hc] at h; norm_num at h
    exact hub (12/10) h h1 h2 (by norm_num) (le_refl _)

/-- Witness for C2_thm at F = 5, A = 4 (far = 4/5, inside the band). -/
theorem C2_witness :
    ¬((5 : ℚ) = 0 ∧ 0 < (4 : ℚ))
    ∧ ¬(0 < (5 : ℚ) ∧ (4 : ℚ) = 0)
    ∧ 8/10 ≤ far 5 4
    ∧ far 5 4 ≤ 12/10
    ∧ status 5 4 = Status.Accurate :=
  ⟨by norm_num, by norm_num, by norm_num [far], by norm_num [far],
   (C2_thm 5 4).2.2.1 (by norm_num) (by norm_num)
     (by norm_num [far]) (by norm_num [far])⟩

/-- C3 counterexample: the combination (entity X, month 1) is present in the
forecast source with the nonzero quantity 100, yet the run yields no output
row at all, because no sales row carries the SKU X. -/
theorem C3_counterexample :
    calculate_forecast_accuracy [⟨"X", "P", [Cell.num 100]⟩] [⟨"Y", [Cell.num 50]⟩] = []
    ∧ (100 : ℚ) ≠ 0 :=
  ⟨by decide, by norm_num⟩

/-- C3 (amended): the reconciliation is not a full outer join - an entity key
with no matching sales row contributes no output row at all: every output
row's SKU_SAP has at least one sales row with that key. -/
theorem C3_thm (k : String) (rofo : List RofoRow) (sales : List SalesRow)
    (h : ∀ s ∈ sales, s.sku_sap ≠ k) :
    ∀ a ∈ calculate_forecast_accuracy rofo sales, a.sku_sap ≠ k := by
  intro a ha
  rw [calculate_forecast_accuracy] at ha
  by_cases hemp : (rofo.isEmpty || sales.isEmpty) = true
  · rw [if_pos hemp] at ha
    simp at ha
  · rw [if_neg hemp] at ha
    rw [List.mem_filterMap] at ha
    obtain ⟨r, -, hg⟩ := ha
    rcases hfind : sales.find? (fun s => s.sku_sap == r.sku_sap) with _ | srow
    · rw [hfind] at hg; simp at hg
    · rw [hfind] at hg
      have hmem := List.mem_of_find?_eq_some hfind
      have hpred := List.find?_some hfind
      have hsr : srow.sku_sap = r.sku_sap := by
        simpa using hpred
      simp only [Option.some.injEq] at hg
      have har : a.sku_sap = r.sku_sap := by rw [← hg]
      intro hak
      apply h srow hmem
      rw [hsr, ← har]
      exact hak

/-- Witness for C3_thm: the forecast-only entity X produces no output row. -/
theorem C3_witness :
    (∀ s ∈ ([⟨"Y", [Cell.num 50]⟩] : List SalesRow), s.sku_sap ≠ "X")
    ∧ ∀ a ∈ calculate_forecast_accuracy [⟨"X", "P", [Cell.num 100]⟩]
        [⟨"Y", [Cell.num 50]⟩], a.sku_sap ≠ "X" :=
  ⟨by decide, C3_thm "X" _ _ (by decide)⟩

/-- C8 counterexample: prepare_data overwrites the column labels of the
nonempty master table in place, so after the run the caller-visible column
names differ from the ones before the run. -/
theorem C8_counterexample :
    masterAfterPrepare ⟨["A", "B", "C"], [[Cell.num 1, Cell.num 2, Cell.num 3]]⟩ ≠
      ⟨["A", "B", "C"], [[Cell.num 1, Cell.num 2, Cell.num 3]]⟩ := by
  decide

/-- C8 (amended): prepare_data renames the columns of a nonempty 3-column
master table in place to Material, OLD_Material, SKU_SAP - a caller-visible
mutation - while the rows and cells of the caller's table object are left
unchanged (the row filters rebind fresh frames). -/
theorem C8_thm (t : RawTable) :
    (masterAfterPrepare t).rows = t.rows
    ∧ (t.rows ≠ [] → t.cols.length = 3 →
        (masterAfterPrepare t).cols = ["Material", "OLD_Material", "SKU_SAP"]) := by
  rw [masterAfterPrepare]
  by_cases h1 : t.rows.isEmpty = true
  · rw [if_pos h1]
    exact ⟨rfl, fun hne _ => absurd (List.isEmpty_iff.mp h1) hne⟩
  · rw [if_neg h1]
    by_cases h2 : t.cols.length = 3
    · rw [if_pos h2]
      exact ⟨rfl, fun _ _ => rfl⟩
    · rw [if_neg h2]
      exact ⟨rfl, fun _ h3 => absurd h3 h2⟩

/-- Witness for C8_thm on a concrete 3-column table. -/
theorem C8_witness :
    RawTable.rows ⟨["A", "B", "C"], [[Cell.num 1, Cell.num 2, Cell.num 3]]⟩ ≠ []
    ∧ (RawTable.cols ⟨["A", "B", "C"], [[Cell.num 1, Cell.num 2, Cell.num 3]]⟩).length = 3
    ∧ (masterAfterPrepare ⟨["A", "B", "C"], [[Cell.num 1, Cell.num 2, Cell.num 3]]⟩).cols =
        ["Material", "OLD_Material", "SKU_SAP"] :=
  ⟨by decide, by decide,
   (C8_thm ⟨["A", "B", "C"], [[Cell.num 1, Cell.num 2, Cell.num 3]]⟩).2
     (by decide) (by decide)⟩

/-- C9: under the guard of src/app.py line 201 - both values present and the
forecast different from 0 - the try-block body never raises
ZeroDivisionError: the only division is by the forecast value, which the
guard has already checked to be nonzero. -/
theorem C9_thm (f s : Cell) (h : (notna f && notna s && cellNeZero f) = true) :
    tryBody f s ≠ Except.error PyErr.zeroDivision := by
  rcases f with q | _ | t
  · rcases s with v | _ | u
    · have hq : ¬ q = 0 := by
        intro h0
        simp [cellNeZero, h0] at h
      simp [tryBody, pySub, pyDiv, hq]
    · simp [notna] at h
    · simp [tryBody, pySub]
  · simp [notna] at h
  · rcases s with v | _ | u <;> simp_all [tryBody, pySub, notna]

/-- Witness for C9_thm at forecast 2, sales 3. -/
theorem C9_witness :
    (notna (Cell.num 2) && notna (Cell.num 3) && cellNeZero (Cell.num 2)) = true
    ∧ tryBody (Cell.num 2) (Cell.num 3) ≠ Except.error PyErr.zeroDivision :=
  ⟨by decide, C9_thm _ _ (by decide)⟩

/-- C10: every per-month accuracy value in the report produced by
calculate_forecast_accuracy is either None or the clamped percentage
max(0, min(100, (1 - abs(sales - forecast)/forecast) * 100)) for a nonzero
forecast, and every non-None value lies in the closed interval from 0 to
100. -/
theorem C10_thm (rofo : List RofoRow) (sales : List SalesRow) (r : AccuracyRow)
    (hr : r ∈ calculate_forecast_accuracy rofo sales) (x : Option ℚ) (hx : x ∈ r.acc) :
    x = none ∨ ∃ q v : ℚ, q ≠ 0
      ∧ x = some (max 0 (min 100 ((1 - |v - q| / q) * 100)))
      ∧ 0 ≤ max 0 (min 100 ((1 - |v - q| / q) * 100))
      ∧ max 0 (min 100 ((1 - |v - q| / q) * 100)) ≤ 100 := by
  rw [calculate_forecast_accuracy] at hr
  by_cases hemp : (rofo.isEmpty || sales.isEmpty) = true
  · rw [if_pos hemp] at hr
    simp at hr
  · rw [if_neg hemp] at hr
    rw [List.mem_filterMap] at hr
    obtain ⟨rr, -, hg⟩ := hr
    rcases hfind : sales.find? (fun s => s.sku_sap == rr.sku_sap) with _ | srow
    · rw [hfind] at hg; simp at hg
    · rw [hfind] at hg
      simp only [Option.some.injEq] at hg
      rw [← hg] at hx
      rw [rowAccuracies, List.mem_map] at hx
      obtain ⟨i, -, rfl⟩ := hx
      rcases monthAccuracy_spec (rr.forecast.get? i) (srow.sales.get? i) with hn | ⟨q, v, hq, hv⟩
      · exact Or.inl hn
      · exact Or.inr ⟨q, v, hq, hv, le_max_left _ _,
          max_le (by norm_num) (min_le_left _ _)⟩

/-- Witness for C10_thm: the month-1 value of the run with forecast 100 and
sales 90 satisfies the invariant. -/
theorem C10_witness :
    c10row ∈ calculate_forecast_accuracy [⟨"X", "P", [Cell.num 100]⟩] [⟨"X", [Cell.num 90]⟩]
    ∧ some (max 0 (min 100 ((1 - |(90 : ℚ) - 100| / 100) * 100))) ∈ c10row.acc
    ∧ (some (max 0 (min 100 ((1 - |(90 : ℚ) - 100| / 100) * 100))) = none
      ∨ ∃ q v : ℚ, q ≠ 0
        ∧ some (max 0 (min 100 ((1 - |(90 : ℚ) - 100| / 100) * 100))) =
            some (max 0 (min 100 ((1 - |v - q| / q) * 100)))
        ∧ 0 ≤ max 0 (min 100 ((1 - |v - q| / q) * 100))
        ∧ max 0 (min 100 ((1 - |v - q| / q) * 100)) ≤ 100) := by
  have h1 : c10row ∈ calculate_forecast_accuracy
      [⟨"X", "P", [Cell.num 100]⟩] [⟨"X", [Cell.num 90]⟩] :=
    List.mem_singleton_self c10row
  have h2 : some (max 0 (min 100 ((1 - |(90 : ℚ) - 100| / 100) * 100))) ∈ c10row.acc :=
    List.mem_cons_self _ _
  exact ⟨h1, h2, C10_thm _ _ c10row h1 _ h2⟩

end ForecastDashboard
